import Mathlib

/-!
Verification of the machine-setup repository's key registry, GitHub key
upload retry logic, preset resolution, and WSL detection, as a shallow
embedding of the Python sources (machine_setup/config.py, keys.py,
secrets.py, windows.py) in Lean 4.

External effects (file system writes, chmod calls, subprocess invocations)
are modelled explicitly: pure functions become Lean functions, and each
effectful operation returns the list of effects it performs alongside its
result, so that theorems can speak about which commands run and what ends
up on disk.
-/

namespace MachineSetup

/-! ## String helpers

Python's `needle in hay` substring operator and `str.lower()` / `str.strip()`
are modelled with executable Lean functions over character lists. -/

/-- Occurrence of `needle` as a contiguous subsequence of a character list
(the semantics of Python's `in` operator on `str`). -/
def listSub (needle : List Char) : List Char → Bool
  | [] => needle.isEmpty
  | c :: t => needle.isPrefixOf (c :: t) || listSub needle t

/-- Python's `needle in hay` on strings. -/
def strContains (hay needle : String) : Bool :=
  listSub needle.data hay.data

/-- Python's `str.lower()` (ASCII case folding, which is all the checked
substrings need), written over the character list so that it evaluates by
kernel reduction. -/
def lowerStr (s : String) : String :=
  String.mk (s.data.map Char.toLower)

/-- Leading-whitespace removal on a character list. -/
def dropLeadingWs : List Char → List Char
  | [] => []
  | c :: t => if c.isWhitespace then dropLeadingWs t else c :: t

/-- Python's `str.strip()`: whitespace removed from both ends, written over
the character list so that it evaluates by kernel reduction. -/
def stripStr (s : String) : String :=
  String.mk ((dropLeadingWs (dropLeadingWs s.data).reverse).reverse)

/-- Result of `machine_setup.utils.run`: a completed process with its exit
code and captured output (subprocess.CompletedProcess). -/
structure RunResult where
  returncode : Int
  stdout : String := ""
  stderr : String := ""
deriving DecidableEq

/-! ## config.py: presets and package tiers -/

/-- The Preset enum of machine_setup/config.py. -/
inductive Preset
  | minimal
  | dev
  | full
deriving DecidableEq

/-- PACKAGES_MINIMAL of config.py. -/
def PACKAGES_MINIMAL : List String :=
  ["bat", "btop", "ca-certificates", "coreutils", "curl", "fzf", "gh", "git",
   "jq", "locales", "man", "ripgrep", "stow", "sudo", "tmux", "vim", "wget",
   "zsh"]

/-- PACKAGES_DEV of config.py. -/
def PACKAGES_DEV : List String :=
  ["at", "ccache", "clang", "clang-format", "cloc", "cmake", "cron",
   "dnsutils", "entr", "g++", "gcc", "gdb", "git-delta", "golang",
   "hyperfine", "lua5.4", "luarocks", "make", "net-tools", "nodejs", "npm",
   "openssl", "parallel", "podman", "python-is-python3", "python3",
   "ipython3", "rlwrap", "rsync", "rustc", "shellcheck", "shfmt", "socat",
   "sqlite3", "ssh", "stress", "traceroute", "w3m", "whois"]

/-- PACKAGES_FULL of config.py (the "love" entry is commented out in the
source and therefore absent). -/
def PACKAGES_FULL : List String :=
  ["ffmpeg", "imagemagick", "img2pdf", "latexmk", "libimage-exiftool-perl",
   "msmtp", "msmtp-mta", "ncal", "optipng", "pandoc", "poppler-utils",
   "qpdf", "rename", "tex-common", "texlive", "tree", "xclip", "zathura"]

/-- UV_TOOLS_MINIMAL of config.py. -/
def UV_TOOLS_MINIMAL : List String := []

/-- UV_TOOLS_DEV of config.py. -/
def UV_TOOLS_DEV : List String :=
  ["ast-grep-cli", "files-to-prompt", "llm", "lmterminal", "lmtoolbox",
   "ruff", "toc-markdown", "ty", "vocabmaster", "wslshot"]

/-- UV_TOOLS_FULL of config.py. -/
def UV_TOOLS_FULL : List String := []

/-- NPM_TOOLS_MINIMAL of config.py. -/
def NPM_TOOLS_MINIMAL : List String := []

/-- NPM_TOOLS_DEV of config.py. -/
def NPM_TOOLS_DEV : List String :=
  ["@ccusage/codex", "@openai/codex", "n", "opencode-ai"]

/-- NPM_TOOLS_FULL of config.py. -/
def NPM_TOOLS_FULL : List String := []

/-- STOW_PACKAGES of config.py: the per-preset dict of stow package lists. -/
def STOW_PACKAGES : Preset → List String
  | .minimal => ["shell", "git"]
  | .dev => ["shell", "git", "vim", "tmux", "config", "ai-tools", "misc"]
  | .full => ["shell", "git", "vim", "tmux", "config", "ai-tools", "misc",
              "gui"]

/-- The SetupConfig dataclass of config.py. -/
structure SetupConfig where
  preset : Preset
  dotfiles_repo : String := "https://github.com/sderev/.dotfiles_private.git"
  dotfiles_dir : String := "~/Repos/github.com/sderev/.dotfiles_private"
  dotfiles_branch : String := "main"
  home_dir : String := "~"

/-- SetupConfig.get_packages: packages for the current preset (cumulative). -/
def SetupConfig.get_packages (c : SetupConfig) : List String :=
  let packages := PACKAGES_MINIMAL
  let packages :=
    if c.preset = Preset.dev ∨ c.preset = Preset.full
    then packages ++ PACKAGES_DEV else packages
  let packages :=
    if c.preset = Preset.full then packages ++ PACKAGES_FULL else packages
  packages

/-- SetupConfig.get_stow_packages: stow packages for the current preset. -/
def SetupConfig.get_stow_packages (c : SetupConfig) : List String :=
  STOW_PACKAGES c.preset

/-- SetupConfig.get_uv_tools: uv tools for the current preset (cumulative). -/
def SetupConfig.get_uv_tools (c : SetupConfig) : List String :=
  let tools := UV_TOOLS_MINIMAL
  let tools :=
    if c.preset = Preset.dev ∨ c.preset = Preset.full
    then tools ++ UV_TOOLS_DEV else tools
  let tools :=
    if c.preset = Preset.full then tools ++ UV_TOOLS_FULL else tools
  tools

/-- SetupConfig.get_npm_tools: npm tools for the current preset
(cumulative). -/
def SetupConfig.get_npm_tools (c : SetupConfig) : List String :=
  let tools := NPM_TOOLS_MINIMAL
  let tools :=
    if c.preset = Preset.dev ∨ c.preset = Preset.full
    then tools ++ NPM_TOOLS_DEV else tools
  let tools :=
    if c.preset = Preset.full then tools ++ NPM_TOOLS_FULL else tools
  tools

/-! ## windows.py: WSL detection -/

/-- Inputs probed by `is_wsl`: the text of /proc/version (`none` when opening
the file raises FileNotFoundError) and the value of the WSL_DISTRO_NAME
environment variable (`none` when unset). -/
structure WslProbe where
  procVersion : Option String
  wslDistroName : Option String

/-- windows.py `is_wsl`: method 1 reads /proc/version and looks for
"microsoft" or "wsl" in the lowercased contents; when the file is missing or
matches neither, method 2 falls back to `bool(os.environ.get("WSL_DISTRO_NAME"))`. -/
def is_wsl (e : WslProbe) : Bool :=
  let fromProc :=
    match e.procVersion with
    | some contents =>
        let version := lowerStr contents
        strContains version "microsoft" || strContains version "wsl"
    | none => false
  if fromProc then true
  else
    match e.wslDistroName with
    | some s => s != ""
    | none => false

/-! ## secrets.py: GitHub key upload with duplicate handling and 404 retry

`add_ssh_key_to_github` and `add_gpg_key_to_github` shell out to the gh CLI.
The environment of one call (which commands exist, whether authentication
succeeds, and the CompletedProcess of each `run` invocation) is a record;
the functions return the boolean the Python code returns together with how
many upload attempts ran and whether `_refresh_gh_scopes` was invoked. -/

/-- The `f"{result.stdout}{result.stderr}".lower()` string both functions
inspect after a failed upload. -/
def outputHint (r : RunResult) : String :=
  lowerStr (r.stdout ++ r.stderr)

/-- The duplicate-key check: `"already" in duplicate_hint`. -/
def mentionsAlready (r : RunResult) : Bool :=
  strContains (outputHint r) "already"

/-- The missing-scope check: `"http 404" in hint or "status 404" in hint`. -/
def mentions404 (r : RunResult) : Bool :=
  strContains (outputHint r) "http 404" ||
    strContains (outputHint r) "status 404"

/-- Outcomes of the external commands the upload block can run: the first
`gh ... add`, the `gh auth refresh` (as its boolean success, the value
`_refresh_gh_scopes` returns), and the retried `gh ... add`. -/
structure UploadEnv where
  firstAdd : RunResult
  refreshOk : Bool
  secondAdd : RunResult
deriving DecidableEq

/-- What an upload run did: the returned boolean, the number of
`gh ... add` invocations, and whether `_refresh_gh_scopes` was called. -/
structure UploadOutcome where
  ok : Bool
  uploads : Nat
  refreshed : Bool
deriving DecidableEq

/-- The upload block shared verbatim by add_ssh_key_to_github
(secrets.py lines 172-206) and add_gpg_key_to_github (lines 328-361):
run the add; on non-zero exit treat "already" as success, refresh scopes
and retry once on a 404 hint, and otherwise fail. -/
def uploadWithRetry (e : UploadEnv) : UploadOutcome :=
  let result := e.firstAdd
  if result.returncode ≠ 0 then
    if mentionsAlready result then ⟨true, 1, false⟩
    else if mentions404 result then
      if ¬ e.refreshOk then ⟨false, 1, true⟩
      else
        let retry := e.secondAdd
        if retry.returncode ≠ 0 then
          if mentionsAlready retry then ⟨true, 2, true⟩
          else ⟨false, 2, true⟩
        else ⟨true, 2, true⟩
    else ⟨false, 1, false⟩
  else ⟨true, 1, false⟩

/-- Environment of one add_ssh_key_to_github call: `command_exists("gh")`,
the public key file's existence, the result of `_ensure_gh_authenticated`,
and the upload commands' outcomes. -/
structure SshAddEnv where
  ghExists : Bool
  pubKeyExists : Bool
  authOk : Bool
  upload : UploadEnv
deriving DecidableEq

/-- secrets.py add_ssh_key_to_github. -/
def add_ssh_key_to_github (e : SshAddEnv) : UploadOutcome :=
  if ¬ e.ghExists then ⟨false, 0, false⟩
  else if ¬ e.pubKeyExists then ⟨false, 0, false⟩
  else if ¬ e.authOk then ⟨false, 0, false⟩
  else uploadWithRetry e.upload

/-- Environment of one add_gpg_key_to_github call: existence of the gh and
gpg commands, the `_ensure_gh_authenticated` result, the
`gpg --armor --export` outcome, and the upload commands' outcomes. -/
structure GpgAddEnv where
  ghExists : Bool
  gpgExists : Bool
  authOk : Bool
  exportResult : RunResult
  upload : UploadEnv
deriving DecidableEq

/-- secrets.py add_gpg_key_to_github. -/
def add_gpg_key_to_github (e : GpgAddEnv) : UploadOutcome :=
  if ¬ e.ghExists then ⟨false, 0, false⟩
  else if ¬ e.gpgExists then ⟨false, 0, false⟩
  else if ¬ e.authOk then ⟨false, 0, false⟩
  else if e.exportResult.returncode ≠ 0 ∨ stripStr e.exportResult.stdout = ""
  then ⟨false, 0, false⟩
  else uploadWithRetry e.upload

/-! ## secrets.py: generate_ssh_key -/

/-- Effects generate_ssh_key can perform: creating and chmod-ing ~/.ssh,
invoking `ssh-keygen -y` (public key derivation), writing and chmod-ing the
public key file, invoking `ssh-keygen -t ed25519` (key generation), and
chmod-ing the private key file. -/
inductive SshEffect
  | mkdirSshDir
  | chmodSshDir
  | runDerivePub
  | writePubFile
  | chmodPubFile
  | runKeygen
  | chmodPrivFile
deriving DecidableEq

/-- Effects that write or chmod one of the two key files. -/
def modifiesKeyFile : SshEffect → Bool
  | .writePubFile | .chmodPubFile | .chmodPrivFile => true
  | _ => false

/-- Effects that invoke the ssh-keygen command. -/
def invokesSshKeygen : SshEffect → Bool
  | .runDerivePub | .runKeygen => true
  | _ => false

/-- Environment of one generate_ssh_key call: `command_exists("ssh-keygen")`,
existence of the private and public key files, and the outcomes of the two
possible ssh-keygen invocations. -/
structure SshKeygenEnv where
  sshKeygenExists : Bool
  privExists : Bool
  pubExists : Bool
  deriveResult : RunResult
  genResult : RunResult
deriving DecidableEq

/-- secrets.py generate_ssh_key: returns the boolean the function returns
together with the effects performed, in order. -/
def generate_ssh_key (e : SshKeygenEnv) : Bool × List SshEffect :=
  if ¬ e.sshKeygenExists then (false, [])
  else
    let dirEffects := [SshEffect.mkdirSshDir, SshEffect.chmodSshDir]
    if e.privExists ∧ e.pubExists then (true, dirEffects)
    else if e.privExists ∧ ¬ e.pubExists then
      let effects := dirEffects ++ [SshEffect.runDerivePub]
      let public_key := stripStr e.deriveResult.stdout
      if e.deriveResult.returncode ≠ 0 ∨ public_key = "" then (false, effects)
      else
        (true, effects ++ [SshEffect.writePubFile, SshEffect.chmodPubFile])
    else if e.pubExists ∧ ¬ e.privExists then (false, dirEffects)
    else
      let effects := dirEffects ++ [SshEffect.runKeygen]
      if e.genResult.returncode ≠ 0 then (false, effects)
      else (true, effects ++ [SshEffect.chmodPrivFile])

/-! ## keys.py: the key registry

KeyRegistry holds a path and a record list; every mutating operation
re-serializes the whole list with `json.dumps(data, indent=2)`, writes it to
the registry path and chmods the file to 0o600. The write, mkdir and chmod
calls are modelled as an explicit effect list. -/

/-- The KeyRecord dataclass of keys.py. -/
structure KeyRecord where
  key_type : String
  fingerprint : String
  title : String
  created_at : String
  github_key_id : Option String := none
deriving DecidableEq

/-- Lowercase hexadecimal digit, as json.dumps prints escape sequences. -/
def hexDigitChar (n : Nat) : Char :=
  if n < 10 then Char.ofNat (48 + n) else Char.ofNat (87 + n)

/-- One \uXXXX escape for a code unit below 0x10000. -/
def uEscape (n : Nat) : String :=
  "\\u" ++ String.mk [hexDigitChar (n / 4096 % 16), hexDigitChar (n / 256 % 16),
    hexDigitChar (n / 16 % 16), hexDigitChar (n % 16)]

/-- How json.dumps (with its default ensure_ascii=True) escapes one
character: the two-character escapes for quote, backslash and the common
control characters, \u00XX for the other controls, the character itself for
printable ASCII, and \uXXXX (with surrogate pairs above 0xFFFF) for
everything else. -/
def escChar (c : Char) : String :=
  if c = '"' then "\\\""
  else if c = '\\' then "\\\\"
  else if c = '\n' then "\\n"
  else if c = '\t' then "\\t"
  else if c = '\r' then "\\r"
  else if c = Char.ofNat 8 then "\\b"
  else if c = Char.ofNat 12 then "\\f"
  else if c.toNat < 32 ∨ c.toNat > 126 then
    if c.toNat < 65536 then uEscape c.toNat
    else
      uEscape (55296 + (c.toNat - 65536) / 1024) ++
        uEscape (56320 + (c.toNat - 65536) % 1024)
  else String.singleton c

/-- A JSON string literal as json.dumps prints it. -/
def jsonStr (s : String) : String :=
  "\"" ++ String.join (s.data.map escChar) ++ "\""

/-- One record as json.dumps(..., indent=2) prints it inside the "keys"
array: asdict field order (key_type, fingerprint, title, created_at,
github_key_id), with None printed as null. -/
def dumpRecord (k : KeyRecord) : String :=
  "    \x7b\n      \"key_type\": " ++ jsonStr k.key_type ++
    ",\n      \"fingerprint\": " ++ jsonStr k.fingerprint ++
    ",\n      \"title\": " ++ jsonStr k.title ++
    ",\n      \"created_at\": " ++ jsonStr k.created_at ++
    ",\n      \"github_key_id\": " ++
    (match k.github_key_id with
     | none => "null"
     | some s => jsonStr s) ++
    "\n    \x7d"

/-- The registry file content KeyRegistry._save writes:
json.dumps of the object with the single field "keys" holding the record
array, indent=2. -/
def dumpRegistry (ks : List KeyRecord) : String :=
  match ks with
  | [] => "\x7b\n  \"keys\": []\n\x7d"
  | _ =>
      "\x7b\n  \"keys\": [\n" ++
        String.intercalate ",\n" (ks.map dumpRecord) ++ "\n  ]\n\x7d"

/-- File-system effects KeyRegistry._save performs: the
`path.parent.mkdir(parents=True, exist_ok=True)`, the `path.write_text`
(a whole-file content replacement) and the `path.chmod`. -/
inductive FsEffect
  | mkdirParent (path : String)
  | writeText (path : String) (content : String)
  | chmod (path : String) (mode : Nat)
deriving DecidableEq

/-- keys.py get_registry_path: `os.environ.get("XDG_DATA_HOME", "")`
selects the base, falling back to home/.local/share when the variable is
unset or empty, and machine-setup/keys.json is appended. Paths are strings
with "/" separators; `home` stands for Path.home(). -/
def get_registry_path (xdgDataHome : Option String) (home : String) : String :=
  let xdg_data_home := xdgDataHome.getD ""
  let base :=
    if xdg_data_home ≠ "" then xdg_data_home else home ++ "/.local/share"
  base ++ "/machine-setup/keys.json"

/-- The registry path as the spec's words describe it:
$XDG_DATA_HOME/machine-setup/keys.json when XDG_DATA_HOME is set and
non-empty, otherwise ~/.local/share/machine-setup/keys.json. -/
def xdgRegistryPathSpec (xdgDataHome : Option String) (home : String) : String :=
  match xdgDataHome with
  | some v =>
      if v ≠ "" then v ++ "/machine-setup/keys.json"
      else home ++ "/.local/share/machine-setup/keys.json"
  | none => home ++ "/.local/share/machine-setup/keys.json"

/-- In-memory state of keys.py KeyRegistry: its path and its record list
(self.path and self._keys). -/
structure KeyRegistry where
  path : String
  keys : List KeyRecord
deriving DecidableEq

/-- KeyRegistry._save: mkdir -p of the parent directory, a whole-file write
of the JSON serialization of the complete current record list, then
chmod 0o600 (= 384). -/
def KeyRegistry.save (reg : KeyRegistry) : List FsEffect :=
  [FsEffect.mkdirParent reg.path,
   FsEffect.writeText reg.path (dumpRegistry reg.keys),
   FsEffect.chmod reg.path 384]

/-- KeyRegistry.add: append the record and save. -/
def KeyRegistry.add (reg : KeyRegistry) (record : KeyRecord) :
    KeyRegistry × List FsEffect :=
  let reg' := { reg with keys := reg.keys ++ [record] }
  (reg', reg'.save)

/-- KeyRegistry.remove: keep only the records whose fingerprint differs;
save and report true exactly when the list shrank. -/
def KeyRegistry.remove (reg : KeyRegistry) (fingerprint : String) :
    KeyRegistry × Bool × List FsEffect :=
  let keys' := reg.keys.filter (fun k => k.fingerprint != fingerprint)
  let reg' := { reg with keys := keys' }
  if keys'.length < reg.keys.length then (reg', true, reg'.save)
  else (reg', false, [])

/-- KeyRegistry.remove_by_title: keep only the records whose title differs;
save and report true exactly when the list shrank. -/
def KeyRegistry.remove_by_title (reg : KeyRegistry) (title : String) :
    KeyRegistry × Bool × List FsEffect :=
  let keys' := reg.keys.filter (fun k => k.title != title)
  let reg' := { reg with keys := keys' }
  if keys'.length < reg.keys.length then (reg', true, reg'.save)
  else (reg', false, [])

/-- KeyRegistry.get_all. -/
def KeyRegistry.get_all (reg : KeyRegistry) : List KeyRecord :=
  reg.keys

/-- KeyRegistry.find_by_fingerprint: the first record with the
fingerprint, if any. -/
def KeyRegistry.find_by_fingerprint (reg : KeyRegistry) (fingerprint : String) :
    Option KeyRecord :=
  reg.keys.find? (fun k => k.fingerprint == fingerprint)

/-- A file system as a content map, updated effect by effect: writeText
replaces the whole content stored at its path; mkdirParent and chmod leave
every file's content unchanged. -/
def applyFsEffect (fs : String → Option String) :
    FsEffect → String → Option String
  | FsEffect.writeText p c => fun q => if q = p then some c else fs q
  | FsEffect.mkdirParent _ => fs
  | FsEffect.chmod _ _ => fs

/-- A file system after a list of effects. -/
def applyFsEffects (fs : String → Option String) (effects : List FsEffect) :
    String → Option String :=
  effects.foldl applyFsEffect fs

/-! ## keys.py: GitHub key listings and pruning -/

/-- The GitHubKey dataclass of keys.py (fingerprint is only set for GPG
keys). -/
structure GitHubKey where
  key_id : String
  title : String
  key_type : String
  created_at : String
  fingerprint : Option String := none
deriving DecidableEq

/-- KEY_PATTERN = re.compile(r"^machine-setup-"); re.match anchors at the
start of the string, so a title matches exactly when it starts with
"machine-setup-". -/
def keyPatternMatch (title : String) : Bool :=
  "machine-setup-".data.isPrefixOf title.data

/-- keys.py filter_machine_setup_keys: keep only the keys whose title
matches KEY_PATTERN. -/
def filter_machine_setup_keys (keys : List GitHubKey) : List GitHubKey :=
  keys.filter (fun k => keyPatternMatch k.title)

/-- The KeyListResult dataclass of keys.py: the listed keys on success, an
error message on failure. -/
structure KeyListResult where
  keys : List GitHubKey
  error : Option String := none

/-- Numeric value of a digit string, as int() computes it. -/
def digitsToNat (cs : List Char) : Nat :=
  cs.foldl (fun acc c => acc * 10 + (c.toNat - 48)) 0

/-- keys.py parse_duration: re.match(r"^(\d+)d$", duration_str.strip());
the match succeeds exactly on one or more digits followed by a final 'd',
yielding the digits' value. -/
def parse_duration (duration_str : String) : Option Nat :=
  let t := stripStr duration_str
  let digits := t.data.dropLast
  if t.data.getLast? = some 'd' ∧ digits ≠ [] ∧ digits.all Char.isDigit
  then some (digitsToNat digits)
  else none

/-- Environment of one `keys prune` invocation: `command_exists("gh")`, the
two listing results, the --older-than and --yes options, the answer of the
interactive click.confirm prompt, and an oracle standing for
is_key_older_than (which compares GitHub's creation timestamp against the
current date; its verdict only ever shrinks the candidate list, so its
value is irrelevant to which titles can be deleted). -/
structure PruneEnv where
  ghExists : Bool
  sshResult : KeyListResult
  gpgResult : KeyListResult
  older_than : Option String
  yes : Bool
  confirmed : Bool
  keyOlderThan : GitHubKey → Nat → Bool

/-- The delete commands prune_keys issues, in order, as (key_type, key_id)
pairs: an entry whose key_type is "ssh" stands for `gh ssh-key delete id`,
any other for `gh gpg-key delete id`. A delete is attempted for every key
of the final filtered list regardless of the individual command's success,
so this list is exactly the set of ids prune touches on GitHub. -/
def pruneDeletions (env : PruneEnv) : List (String × String) :=
  if ¬ env.ghExists then []
  else if env.sshResult.error.isSome ∨ env.gpgResult.error.isSome then []
  else
    let ssh_keys := filter_machine_setup_keys env.sshResult.keys
    let gpg_keys := filter_machine_setup_keys env.gpgResult.keys
    let all_keys := ssh_keys ++ gpg_keys
    if all_keys.isEmpty then []
    else
      match env.older_than with
      | some d =>
          match parse_duration d with
          | none => []
          | some days =>
              let aged := all_keys.filter (fun k => env.keyOlderThan k days)
              if aged.isEmpty then []
              else if env.yes ∨ env.confirmed then
                aged.map (fun k => (k.key_type, k.key_id))
              else []
      | none =>
          if env.yes ∨ env.confirmed then
            all_keys.map (fun k => (k.key_type, k.key_id))
          else []

/-! ## keys.py: KeyRegistry._load -/

/-- JSON values as json.loads produces them; objects are Python dicts, so
their field names are distinct. -/
inductive JValue
  | null
  | bool (b : Bool)
  | num (n : Int)
  | str (s : String)
  | arr (xs : List JValue)
  | obj (fields : List (String × JValue))

/-- Value stored under a key of a JSON object (dict lookup). -/
def lookupField : List (String × JValue) → String → Option JValue
  | [], _ => none
  | (k, v) :: rest, key => if k = key then some v else lookupField rest key

/-- What the registry file can present to _load: missing, unparseable text
(json.JSONDecodeError), or text parsed into a JSON value. -/
inductive RegistryFile
  | absent
  | invalidJson
  | parsed (v : JValue)

/-- Python exceptions _load can meet. TypeError (from KeyRecord(**k) or
from iterating a non-iterable "keys" value) is caught by the except
clause; AttributeError (from calling .get on a non-dict) is not. -/
inductive PyErr
  | typeError
  | attributeError
deriving DecidableEq

/-- A record as _load builds it, field values kept as JSON (the dataclass
does not validate value types). -/
structure RawRecord where
  key_type : JValue
  fingerprint : JValue
  title : JValue
  created_at : JValue
  github_key_id : JValue

/-- The field names KeyRecord accepts as keyword arguments. -/
def recordFieldNames : List String :=
  ["key_type", "fingerprint", "title", "created_at", "github_key_id"]

/-- The field names KeyRecord requires (github_key_id has a default). -/
def requiredFieldNames : List String :=
  ["key_type", "fingerprint", "title", "created_at"]

/-- Whether KeyRecord(**k) accepts the dict's keys: every required name
present, no name outside the dataclass's fields. -/
def recordFieldsOk (fields : List (String × JValue)) : Bool :=
  requiredFieldNames.all (fun n => (fields.map Prod.fst).contains n) &&
    (fields.map Prod.fst).all (fun n => recordFieldNames.contains n)

/-- An entry of the "keys" list on which KeyRecord(**k) raises TypeError:
anything but an object whose field names fit the dataclass. -/
def recordFieldsMismatch : JValue → Bool
  | JValue.obj fields => ! recordFieldsOk fields
  | _ => true

/-- KeyRecord(**k) for one entry of the "keys" list. -/
def buildRecord : JValue → Except PyErr RawRecord
  | JValue.obj fields =>
      if recordFieldsOk fields then
        Except.ok
          { key_type := (lookupField fields "key_type").getD JValue.null,
            fingerprint :=
              (lookupField fields "fingerprint").getD JValue.null,
            title := (lookupField fields "title").getD JValue.null,
            created_at :=
              (lookupField fields "created_at").getD JValue.null,
            github_key_id :=
              (lookupField fields "github_key_id").getD JValue.null }
      else Except.error PyErr.typeError
  | _ => Except.error PyErr.typeError

/-- The comprehension `[KeyRecord(**k) for k in data.get("keys", [])]`: the
first TypeError aborts the whole list. -/
def buildRecords : List JValue → Except PyErr (List RawRecord)
  | [] => Except.ok []
  | k :: ks =>
      match buildRecord k with
      | Except.error e => Except.error e
      | Except.ok r =>
          match buildRecords ks with
          | Except.error e => Except.error e
          | Except.ok rs => Except.ok (r :: rs)

/-- KeyRegistry._load. A missing file or a json.JSONDecodeError leaves the
registry empty, and so does any TypeError raised while building records
(both exception types are caught). A "keys" value that is not a JSON array
also ends empty: iterating a string or a dict yields strings, on which
KeyRecord(**k) raises TypeError (or the comprehension is empty), and
iterating a number, boolean or null raises TypeError directly. Valid JSON
whose top level is not an object, however, raises AttributeError at
`data.get("keys", [])`, which the except clause does not catch. -/
def loadRegistry : RegistryFile → Except PyErr (List RawRecord)
  | RegistryFile.absent => Except.ok []
  | RegistryFile.invalidJson => Except.ok []
  | RegistryFile.parsed (JValue.obj fields) =>
      match (lookupField fields "keys").getD (JValue.arr []) with
      | JValue.arr xs =>
          match buildRecords xs with
          | Except.ok rs => Except.ok rs
          | Except.error _ => Except.ok []
      | _ => Except.ok []
  | RegistryFile.parsed _ => Except.error PyErr.attributeError

/-! ## Theorems -/

/-- A filter shrinks a list exactly when some element fails the predicate. -/
theorem length_filter_lt_iff {α : Type} (p : α → Bool) (l : List α) :
    (l.filter p).length < l.length ↔ ∃ a ∈ l, p a = false := by
  constructor
  · intro h
    by_contra hc
    push_neg at hc
    have hall : ∀ a ∈ l, p a = true := by
      intro a ha
      cases hpa : p a with
      | true => rfl
      | false => exact absurd hpa (hc a ha)
    exact absurd (List.filter_length_eq_length.mpr hall) (Nat.ne_of_lt h)
  · rintro ⟨a, ha, hpa⟩
    rcases Nat.lt_or_ge (l.filter p).length l.length with h | h
    · exact h
    · have he : (l.filter p).length = l.length :=
        Nat.le_antisymm (List.length_filter_le p l) h
      rw [List.filter_length_eq_length.mp he a ha] at hpa
      cases hpa

/-- The effects of a changed remove are the save of the new state; an
unchanged remove performs none. -/
theorem remove_effects (reg : KeyRegistry) (fp : String) :
    ((reg.remove fp).2.1 = true →
      (reg.remove fp).2.2 = KeyRegistry.save (reg.remove fp).1) ∧
    ((reg.remove fp).2.1 = false → (reg.remove fp).2.2 = []) ∧
    (reg.remove fp).1.path = reg.path := by
  by_cases h :
      (reg.keys.filter (fun k => k.fingerprint != fp)).length <
        reg.keys.length <;>
    simp [KeyRegistry.remove, h]

/-- The effects of a changed remove_by_title are the save of the new state;
an unchanged remove_by_title performs none. -/
theorem remove_by_title_effects (reg : KeyRegistry) (t : String) :
    ((reg.remove_by_title t).2.1 = true →
      (reg.remove_by_title t).2.2 =
        KeyRegistry.save (reg.remove_by_title t).1) ∧
    ((reg.remove_by_title t).2.1 = false →
      (reg.remove_by_title t).2.2 = []) ∧
    (reg.remove_by_title t).1.path = reg.path := by
  by_cases h :
      (reg.keys.filter (fun k => k.title != t)).length < reg.keys.length <;>
    simp [KeyRegistry.remove_by_title, h]

/-- Applying a save to any file system leaves, at the registry path, exactly
the serialization of the saved record list. -/
theorem applyFs_save (fs : String → Option String) (reg : KeyRegistry) :
    applyFsEffects fs reg.save reg.path = some (dumpRegistry reg.keys) := by
  simp [applyFsEffects, KeyRegistry.save, applyFsEffect, List.foldl]

/-- The upload block performs at most two `gh ... add` invocations. -/
theorem uploadWithRetry_uploads_le_two (u : UploadEnv) :
    (uploadWithRetry u).uploads ≤ 2 := by
  by_cases h1 : u.firstAdd.returncode = 0
  · norm_num [uploadWithRetry, h1]
  · by_cases h2 : mentionsAlready u.firstAdd
    · norm_num [uploadWithRetry, h1, h2]
    · by_cases h3 : mentions404 u.firstAdd
      · by_cases h4 : u.refreshOk
        · by_cases h5 : u.secondAdd.returncode = 0
          · norm_num [uploadWithRetry, h1, h2, h3, h4, h5]
          · by_cases h6 : mentionsAlready u.secondAdd <;>
              norm_num [uploadWithRetry, h1, h2, h3, h4, h5, h6]
        · norm_num [uploadWithRetry, h1, h2, h3, h4]
      · norm_num [uploadWithRetry, h1, h2, h3]

/-- Reaching the upload block: with gh present, the public key present and
authentication succeeding, add_ssh_key_to_github is the shared upload
block. -/
theorem add_ssh_reaches_upload (e : SshAddEnv) (hgh : e.ghExists = true)
    (hpub : e.pubKeyExists = true) (hauth : e.authOk = true) :
    add_ssh_key_to_github e = uploadWithRetry e.upload := by
  unfold add_ssh_key_to_github
  simp [hgh, hpub, hauth]

/-- Reaching the upload block: with gh and gpg present, authentication
succeeding and a non-empty exported key, add_gpg_key_to_github is the
shared upload block. -/
theorem add_gpg_reaches_upload (e : GpgAddEnv) (hgh : e.ghExists = true)
    (hgpg : e.gpgExists = true) (hauth : e.authOk = true)
    (hexp : e.exportResult.returncode = 0)
    (hexps : stripStr e.exportResult.stdout ≠ "") :
    add_gpg_key_to_github e = uploadWithRetry e.upload := by
  unfold add_gpg_key_to_github
  simp [hgh, hgpg, hauth, hexp, hexps]

/-- On a failed first add whose output mentions "already", the block
succeeds after one attempt without refreshing. -/
theorem uploadWithRetry_first_duplicate (u : UploadEnv)
    (hrc : u.firstAdd.returncode ≠ 0)
    (hdup : mentionsAlready u.firstAdd = true) :
    uploadWithRetry u = ⟨true, 1, false⟩ := by
  unfold uploadWithRetry
  simp [hrc, hdup]

/-- On a failed, non-duplicate first add with a 404 hint, the block
refreshes and either stops (refresh failed) or retries exactly once. -/
theorem uploadWithRetry_404 (u : UploadEnv)
    (hrc : u.firstAdd.returncode ≠ 0)
    (hdup : mentionsAlready u.firstAdd = false)
    (h404 : mentions404 u.firstAdd = true) :
    (u.refreshOk = false → uploadWithRetry u = ⟨false, 1, true⟩) ∧
    (u.refreshOk = true → u.secondAdd.returncode ≠ 0 →
      mentionsAlready u.secondAdd = true → uploadWithRetry u = ⟨true, 2, true⟩) ∧
    (u.refreshOk = true → u.secondAdd.returncode ≠ 0 →
      mentionsAlready u.secondAdd = false →
      uploadWithRetry u = ⟨false, 2, true⟩) ∧
    (u.refreshOk = true → u.secondAdd.returncode = 0 →
      uploadWithRetry u = ⟨true, 2, true⟩) := by
  refine ⟨?_, ?_, ?_, ?_⟩ <;> intro hr
  · unfold uploadWithRetry
    simp [hrc, hdup, h404, hr]
  · intro h2 hd2
    unfold uploadWithRetry
    simp [hrc, hdup, h404, hr, h2, hd2]
  · intro h2 hd2
    unfold uploadWithRetry
    simp [hrc, hdup, h404, hr, h2, hd2]
  · intro h2
    unfold uploadWithRetry
    simp [hrc, hdup, h404, hr, h2]

/-- C3. Preset resolution is cumulative and pure: each of get_packages,
get_uv_tools, get_npm_tools and get_stow_packages depends only on the
preset, and for each of them the minimal list is contained in the dev list
and the dev list in the full list. -/
theorem preset_resolution_cumulative_and_pure :
    (∀ c₁ c₂ : SetupConfig, c₁.preset = c₂.preset →
      c₁.get_packages = c₂.get_packages ∧
      c₁.get_uv_tools = c₂.get_uv_tools ∧
      c₁.get_npm_tools = c₂.get_npm_tools ∧
      c₁.get_stow_packages = c₂.get_stow_packages) ∧
    (∀ cm cd cf : SetupConfig,
      cm.preset = Preset.minimal → cd.preset = Preset.dev →
      cf.preset = Preset.full →
      (∀ x ∈ cm.get_packages, x ∈ cd.get_packages) ∧
      (∀ x ∈ cd.get_packages, x ∈ cf.get_packages) ∧
      (∀ x ∈ cm.get_uv_tools, x ∈ cd.get_uv_tools) ∧
      (∀ x ∈ cd.get_uv_tools, x ∈ cf.get_uv_tools) ∧
      (∀ x ∈ cm.get_npm_tools, x ∈ cd.get_npm_tools) ∧
      (∀ x ∈ cd.get_npm_tools, x ∈ cf.get_npm_tools) ∧
      (∀ x ∈ cm.get_stow_packages, x ∈ cd.get_stow_packages) ∧
      (∀ x ∈ cd.get_stow_packages, x ∈ cf.get_stow_packages)) := by
  constructor
  · intro c₁ c₂ h
    refine ⟨?_, ?_, ?_, ?_⟩ <;>
      simp only [SetupConfig.get_packages, SetupConfig.get_uv_tools,
        SetupConfig.get_npm_tools, SetupConfig.get_stow_packages, h]
  · intro cm cd cf hm hd hf
    have hstow : STOW_PACKAGES Preset.dev =
        STOW_PACKAGES Preset.minimal ++
          ["vim", "tmux", "config", "ai-tools", "misc"] := rfl
    have hstow' : STOW_PACKAGES Preset.full =
        STOW_PACKAGES Preset.dev ++ ["gui"] := rfl
    refine ⟨?_, ?_, ?_, ?_, ?_, ?_, ?_, ?_⟩ <;>
      simp only [SetupConfig.get_packages, SetupConfig.get_uv_tools,
        SetupConfig.get_npm_tools, SetupConfig.get_stow_packages,
        hm, hd, hf] <;>
      intro x hx
    · simp only [reduceCtorEq, or_self, if_neg, or_true, if_pos,
        not_false_iff] at *
      exact List.mem_append_left _ hx
    · simp only [reduceCtorEq, or_false, or_true, or_self, if_pos,
        if_neg, not_false_iff] at *
      exact List.mem_append_left _ hx
    · simp only [reduceCtorEq, or_self, if_neg, or_true, if_pos,
        not_false_iff] at *
      exact List.mem_append_left _ hx
    · simp only [reduceCtorEq, or_false, or_true, or_self, if_pos,
        if_neg, not_false_iff] at *
      exact List.mem_append_left _ hx
    · simp only [reduceCtorEq, or_self, if_neg, or_true, if_pos,
        not_false_iff] at *
      exact List.mem_append_left _ hx
    · simp only [reduceCtorEq, or_false, or_true, or_self, if_pos,
        if_neg, not_false_iff] at *
      exact List.mem_append_left _ hx
    · rw [hstow]
      exact List.mem_append_left _ hx
    · rw [hstow']
      exact List.mem_append_left _ hx

/-- C7. is_wsl returns true exactly when /proc/version is readable and its
lowercased contents contain "microsoft" or "wsl", or when that probe fails
(file absent or neither substring present) and WSL_DISTRO_NAME is set to a
non-empty value. -/
theorem is_wsl_characterization (e : WslProbe) :
    is_wsl e = true ↔
      ((∃ v, e.procVersion = some v ∧
          (strContains (lowerStr v) "microsoft" ||
            strContains (lowerStr v) "wsl") = true) ∨
        ((e.procVersion = none ∨
          ∃ v, e.procVersion = some v ∧
            (strContains (lowerStr v) "microsoft" ||
              strContains (lowerStr v) "wsl") = false) ∧
          ∃ s, e.wslDistroName = some s ∧ s ≠ "")) := by
  rcases e with ⟨pv, wd⟩
  cases pv with
  | none =>
      cases wd with
      | none => simp [is_wsl]
      | some s => simp [is_wsl, bne_iff_ne]
  | some v =>
      cases hb : (strContains (lowerStr v) "microsoft" ||
          strContains (lowerStr v) "wsl") with
      | true =>
          simp only [is_wsl, hb, if_true, Option.some.injEq]
          simp only [Bool.or_eq_true] at hb
          simp [hb]
      | false =>
          rcases Bool.or_eq_false_iff.mp hb with ⟨h1, h2⟩
          cases wd with
          | none => simp [is_wsl, hb, h1, h2]
          | some s => simp [is_wsl, hb, h1, h2, bne_iff_ne]

/-- C1 counterexample: a failed first upload whose output mentions both a
duplicate and HTTP 404. The claim as stated says a 404-indicating failure
triggers a scope refresh and a retry, but the code checks "already" first:
it returns success after a single attempt and never refreshes. -/
theorem ssh_add_404_with_duplicate_counterexample :
    mentions404 ⟨1, "key is already in use (HTTP 404)", ""⟩ = true ∧
    add_ssh_key_to_github
        ⟨true, true, true,
          ⟨⟨1, "key is already in use (HTTP 404)", ""⟩, true, ⟨0, "", ""⟩⟩⟩ =
      ⟨true, 1, false⟩ := by
  constructor
  · rfl
  · rfl

/-- C1 (amended: the 404 branch is reached only when the output does not
indicate a duplicate). For add_ssh_key_to_github and add_gpg_key_to_github:
if the first upload fails with output indicating HTTP 404 and not a
duplicate, the scope is refreshed and the upload retried exactly once; a
failed refresh returns false with no retry; a failed non-duplicate retry
returns false; no call ever performs more than two uploads. -/
theorem upload_404_refresh_retry_amended
    (es : SshAddEnv) (eg : GpgAddEnv)
    (hgh : es.ghExists = true) (hpub : es.pubKeyExists = true)
    (hauth : es.authOk = true)
    (hrc : es.upload.firstAdd.returncode ≠ 0)
    (hdup : mentionsAlready es.upload.firstAdd = false)
    (h404 : mentions404 es.upload.firstAdd = true)
    (ggh : eg.ghExists = true) (ggpg : eg.gpgExists = true)
    (gauth : eg.authOk = true) (gexp : eg.exportResult.returncode = 0)
    (gexps : stripStr eg.exportResult.stdout ≠ "")
    (grc : eg.upload.firstAdd.returncode ≠ 0)
    (gdup : mentionsAlready eg.upload.firstAdd = false)
    (g404 : mentions404 eg.upload.firstAdd = true) :
    ((es.upload.refreshOk = false →
        add_ssh_key_to_github es = ⟨false, 1, true⟩) ∧
      (es.upload.refreshOk = true →
        (add_ssh_key_to_github es).refreshed = true ∧
        (add_ssh_key_to_github es).uploads = 2) ∧
      (es.upload.refreshOk = true → es.upload.secondAdd.returncode ≠ 0 →
        mentionsAlready es.upload.secondAdd = false →
        add_ssh_key_to_github es = ⟨false, 2, true⟩)) ∧
    ((eg.upload.refreshOk = false →
        add_gpg_key_to_github eg = ⟨false, 1, true⟩) ∧
      (eg.upload.refreshOk = true →
        (add_gpg_key_to_github eg).refreshed = true ∧
        (add_gpg_key_to_github eg).uploads = 2) ∧
      (eg.upload.refreshOk = true → eg.upload.secondAdd.returncode ≠ 0 →
        mentionsAlready eg.upload.secondAdd = false →
        add_gpg_key_to_github eg = ⟨false, 2, true⟩)) ∧
    (∀ e : SshAddEnv, (add_ssh_key_to_github e).uploads ≤ 2) ∧
    (∀ e : GpgAddEnv, (add_gpg_key_to_github e).uploads ≤ 2) := by
  have hs := add_ssh_reaches_upload es hgh hpub hauth
  have hg := add_gpg_reaches_upload eg ggh ggpg gauth gexp gexps
  have hs404 := uploadWithRetry_404 es.upload hrc hdup h404
  have hg404 := uploadWithRetry_404 eg.upload grc gdup g404
  refine ⟨⟨?_, ?_, ?_⟩, ⟨?_, ?_, ?_⟩, ?_, ?_⟩
  · intro hr
    rw [hs]
    exact hs404.1 hr
  · intro hr
    rw [hs]
    by_cases h2 : es.upload.secondAdd.returncode = 0
    · rw [hs404.2.2.2 hr h2]
      exact ⟨rfl, rfl⟩
    · by_cases hd2 : mentionsAlready es.upload.secondAdd
      · rw [hs404.2.1 hr h2 hd2]
        exact ⟨rfl, rfl⟩
      · rw [hs404.2.2.1 hr h2 (Bool.not_eq_true _ ▸ hd2)]
        exact ⟨rfl, rfl⟩
  · intro hr h2 hd2
    rw [hs]
    exact hs404.2.2.1 hr h2 hd2
  · intro hr
    rw [hg]
    exact hg404.1 hr
  · intro hr
    rw [hg]
    by_cases h2 : eg.upload.secondAdd.returncode = 0
    · rw [hg404.2.2.2 hr h2]
      exact ⟨rfl, rfl⟩
    · by_cases hd2 : mentionsAlready eg.upload.secondAdd
      · rw [hg404.2.1 hr h2 hd2]
        exact ⟨rfl, rfl⟩
      · rw [hg404.2.2.1 hr h2 (Bool.not_eq_true _ ▸ hd2)]
        exact ⟨rfl, rfl⟩
  · intro hr h2 hd2
    rw [hg]
    exact hg404.2.2.1 hr h2 hd2
  · intro e
    unfold add_ssh_key_to_github
    by_cases h1 : e.ghExists <;> by_cases h2 : e.pubKeyExists <;>
      by_cases h3 : e.authOk <;>
      simp [h1, h2, h3, uploadWithRetry_uploads_le_two]
  · intro e
    unfold add_gpg_key_to_github
    by_cases h1 : e.ghExists <;> by_cases h2 : e.gpgExists <;>
      by_cases h3 : e.authOk <;>
      by_cases h4 : e.exportResult.returncode ≠ 0 ∨
        stripStr e.exportResult.stdout = "" <;>
      simp [h1, h2, h3, h4, uploadWithRetry_uploads_le_two]

/-- Witness for the amended C1 theorem at a concrete environment: first
upload fails with "HTTP 404", the scope refresh fails, and both functions
return false after the single attempt. -/
theorem upload_404_refresh_retry_amended_witness :
    add_ssh_key_to_github
        ⟨true, true, true, ⟨⟨1, "HTTP 404", ""⟩, false, ⟨0, "", ""⟩⟩⟩ =
      ⟨false, 1, true⟩ ∧
    add_gpg_key_to_github
        ⟨true, true, true, ⟨0, "key block", ""⟩,
          ⟨⟨1, "HTTP 404", ""⟩, false, ⟨0, "", ""⟩⟩⟩ =
      ⟨false, 1, true⟩ := by
  have h := upload_404_refresh_retry_amended
    ⟨true, true, true, ⟨⟨1, "HTTP 404", ""⟩, false, ⟨0, "", ""⟩⟩⟩
    ⟨true, true, true, ⟨0, "key block", ""⟩,
      ⟨⟨1, "HTTP 404", ""⟩, false, ⟨0, "", ""⟩⟩⟩
    rfl rfl rfl (by decide) (by decide) (by decide)
    rfl rfl rfl rfl (by decide) (by decide) (by decide) (by decide)
  exact ⟨h.1.1 rfl, h.2.1.1 rfl⟩

/-- C2. A failed upload whose combined output contains "already"
(case-insensitively) is treated as success, both on the first attempt and
on the post-404-refresh retry, for both add_ssh_key_to_github and
add_gpg_key_to_github. -/
theorem duplicate_output_treated_as_success
    (es : SshAddEnv) (eg : GpgAddEnv)
    (hgh : es.ghExists = true) (hpub : es.pubKeyExists = true)
    (hauth : es.authOk = true)
    (ggh : eg.ghExists = true) (ggpg : eg.gpgExists = true)
    (gauth : eg.authOk = true) (gexp : eg.exportResult.returncode = 0)
    (gexps : stripStr eg.exportResult.stdout ≠ "") :
    ((es.upload.firstAdd.returncode ≠ 0 →
        mentionsAlready es.upload.firstAdd = true →
        (add_ssh_key_to_github es).ok = true) ∧
      (es.upload.firstAdd.returncode ≠ 0 →
        mentionsAlready es.upload.firstAdd = false →
        mentions404 es.upload.firstAdd = true →
        es.upload.refreshOk = true →
        es.upload.secondAdd.returncode ≠ 0 →
        mentionsAlready es.upload.secondAdd = true →
        (add_ssh_key_to_github es).ok = true)) ∧
    ((eg.upload.firstAdd.returncode ≠ 0 →
        mentionsAlready eg.upload.firstAdd = true →
        (add_gpg_key_to_github eg).ok = true) ∧
      (eg.upload.firstAdd.returncode ≠ 0 →
        mentionsAlready eg.upload.firstAdd = false →
        mentions404 eg.upload.firstAdd = true →
        eg.upload.refreshOk = true →
        eg.upload.secondAdd.returncode ≠ 0 →
        mentionsAlready eg.upload.secondAdd = true →
        (add_gpg_key_to_github eg).ok = true)) := by
  have hs := add_ssh_reaches_upload es hgh hpub hauth
  have hg := add_gpg_reaches_upload eg ggh ggpg gauth gexp gexps
  refine ⟨⟨?_, ?_⟩, ⟨?_, ?_⟩⟩
  · intro hrc hdup
    rw [hs, uploadWithRetry_first_duplicate es.upload hrc hdup]
  · intro hrc hdup h404 hr h2 hd2
    rw [hs, (uploadWithRetry_404 es.upload hrc hdup h404).2.1 hr h2 hd2]
  · intro hrc hdup
    rw [hg, uploadWithRetry_first_duplicate eg.upload hrc hdup]
  · intro hrc hdup h404 hr h2 hd2
    rw [hg, (uploadWithRetry_404 eg.upload hrc hdup h404).2.1 hr h2 hd2]

/-- Witness for the C2 theorem at a concrete environment: a first upload
that exits 1 printing "key is already in use" yields success from both
functions. -/
theorem duplicate_output_treated_as_success_witness :
    (add_ssh_key_to_github
        ⟨true, true, true,
          ⟨⟨1, "key is already in use", ""⟩, true, ⟨0, "", ""⟩⟩⟩).ok = true ∧
    (add_gpg_key_to_github
        ⟨true, true, true, ⟨0, "key block", ""⟩,
          ⟨⟨1, "key is already in use", ""⟩, true, ⟨0, "", ""⟩⟩⟩).ok =
      true := by
  have h := duplicate_output_treated_as_success
    ⟨true, true, true, ⟨⟨1, "key is already in use", ""⟩, true, ⟨0, "", ""⟩⟩⟩
    ⟨true, true, true, ⟨0, "key block", ""⟩,
      ⟨⟨1, "key is already in use", ""⟩, true, ⟨0, "", ""⟩⟩⟩
    rfl rfl rfl rfl rfl rfl rfl (by decide)
  exact ⟨h.1.1 (by decide) (by decide), h.2.1 (by decide) (by decide)⟩

/-- C8 counterexample: both key files exist but ssh-keygen is not
installed; the claim as stated says generate_ssh_key returns true whenever
both files exist, yet the function returns false (after invoking nothing
and modifying nothing). -/
theorem generate_ssh_key_missing_keygen_counterexample :
    generate_ssh_key ⟨false, true, true, ⟨0, "", ""⟩, ⟨0, "", ""⟩⟩ =
      (false, []) := by
  rfl

/-- C8 (amended: the guard also requires the ssh-keygen command to exist).
Whenever ssh-keygen is available and both the private and the public key
file exist, generate_ssh_key returns true having performed only the ~/.ssh
directory bookkeeping: it invokes no ssh-keygen command and neither writes
nor chmods either key file. -/
theorem generate_ssh_key_existing_key_noop_amended (e : SshKeygenEnv)
    (hk : e.sshKeygenExists = true) (hpriv : e.privExists = true)
    (hpub : e.pubExists = true) :
    generate_ssh_key e =
      (true, [SshEffect.mkdirSshDir, SshEffect.chmodSshDir]) ∧
    ∀ eff ∈ (generate_ssh_key e).2,
      invokesSshKeygen eff = false ∧ modifiesKeyFile eff = false := by
  have h : generate_ssh_key e =
      (true, [SshEffect.mkdirSshDir, SshEffect.chmodSshDir]) := by
    unfold generate_ssh_key
    simp [hk, hpriv, hpub]
  refine ⟨h, ?_⟩
  rw [h]
  intro eff heff
  rcases List.mem_cons.mp heff with rfl | heff'
  · exact ⟨rfl, rfl⟩
  · rcases List.mem_cons.mp heff' with rfl | h0
    · exact ⟨rfl, rfl⟩
    · cases h0

/-- Witness for the amended C8 theorem at a concrete environment with both
key files present and ssh-keygen installed. -/
theorem generate_ssh_key_existing_key_noop_amended_witness :
    generate_ssh_key ⟨true, true, true, ⟨0, "", ""⟩, ⟨0, "", ""⟩⟩ =
      (true, [SshEffect.mkdirSshDir, SshEffect.chmodSshDir]) :=
  (generate_ssh_key_existing_key_noop_amended
    ⟨true, true, true, ⟨0, "", ""⟩, ⟨0, "", ""⟩⟩ rfl rfl rfl).1

/-- C4. The registry's CRUD operations: add appends the record; remove
deletes every record with the given fingerprint and reports true exactly
when one existed, leaving the list unchanged otherwise; remove_by_title
behaves analogously on titles; find_by_fingerprint yields a record with the
fingerprint exactly when one is present, and none otherwise. -/
theorem key_registry_crud_ops (reg : KeyRegistry) (r : KeyRecord)
    (fp t : String) :
    ((reg.add r).1.keys = reg.keys ++ [r]) ∧
    ((reg.remove fp).1.keys =
        reg.keys.filter (fun k => k.fingerprint != fp) ∧
      (∀ k ∈ (reg.remove fp).1.keys, k.fingerprint ≠ fp) ∧
      ((reg.remove fp).2.1 = true ↔ ∃ k ∈ reg.keys, k.fingerprint = fp) ∧
      ((reg.remove fp).2.1 = false → (reg.remove fp).1.keys = reg.keys)) ∧
    ((reg.remove_by_title t).1.keys =
        reg.keys.filter (fun k => k.title != t) ∧
      (∀ k ∈ (reg.remove_by_title t).1.keys, k.title ≠ t) ∧
      ((reg.remove_by_title t).2.1 = true ↔ ∃ k ∈ reg.keys, k.title = t) ∧
      ((reg.remove_by_title t).2.1 = false →
        (reg.remove_by_title t).1.keys = reg.keys)) ∧
    ((∃ k, reg.find_by_fingerprint fp = some k ∧ k.fingerprint = fp) ↔
      ∃ k ∈ reg.keys, k.fingerprint = fp) ∧
    (reg.find_by_fingerprint fp = none ↔
      ∀ k ∈ reg.keys, k.fingerprint ≠ fp) := by
  have hkeysf : (reg.remove fp).1.keys =
      reg.keys.filter (fun k => k.fingerprint != fp) := by
    by_cases h :
        (reg.keys.filter (fun k => k.fingerprint != fp)).length <
          reg.keys.length <;>
      simp [KeyRegistry.remove, h]
  have hkeyst : (reg.remove_by_title t).1.keys =
      reg.keys.filter (fun k => k.title != t) := by
    by_cases h :
        (reg.keys.filter (fun k => k.title != t)).length <
          reg.keys.length <;>
      simp [KeyRegistry.remove_by_title, h]
  have hchf : (reg.remove fp).2.1 = true ↔
      (reg.keys.filter (fun k => k.fingerprint != fp)).length <
        reg.keys.length := by
    by_cases h :
        (reg.keys.filter (fun k => k.fingerprint != fp)).length <
          reg.keys.length <;>
      simp [KeyRegistry.remove, h]
  have hcht : (reg.remove_by_title t).2.1 = true ↔
      (reg.keys.filter (fun k => k.title != t)).length <
        reg.keys.length := by
    by_cases h :
        (reg.keys.filter (fun k => k.title != t)).length <
          reg.keys.length <;>
      simp [KeyRegistry.remove_by_title, h]
  refine ⟨rfl, ⟨hkeysf, ?_, ?_, ?_⟩, ⟨hkeyst, ?_, ?_, ?_⟩, ?_, ?_⟩
  · rw [hkeysf]
    intro k hk
    exact bne_iff_ne.mp (List.mem_filter.mp hk).2
  · rw [hchf, length_filter_lt_iff]
    constructor
    · rintro ⟨a, ha, hpa⟩
      refine ⟨a, ha, ?_⟩
      simpa using hpa
    · rintro ⟨a, ha, hpa⟩
      exact ⟨a, ha, by simp [hpa]⟩
  · intro h
    rw [hkeysf]
    apply List.filter_eq_self.mpr
    intro a ha
    cases hpa : (a.fingerprint != fp) with
    | true => rfl
    | false =>
        exfalso
        have hlt := (length_filter_lt_iff
          (fun k : KeyRecord => k.fingerprint != fp) reg.keys).mpr
          ⟨a, ha, hpa⟩
        rw [hchf.mpr hlt] at h
        cases h
  · rw [hkeyst]
    intro k hk
    exact bne_iff_ne.mp (List.mem_filter.mp hk).2
  · rw [hcht, length_filter_lt_iff]
    constructor
    · rintro ⟨a, ha, hpa⟩
      refine ⟨a, ha, ?_⟩
      simpa using hpa
    · rintro ⟨a, ha, hpa⟩
      exact ⟨a, ha, by simp [hpa]⟩
  · intro h
    rw [hkeyst]
    apply List.filter_eq_self.mpr
    intro a ha
    cases hpa : (a.title != t) with
    | true => rfl
    | false =>
        exfalso
        have hlt := (length_filter_lt_iff
          (fun k : KeyRecord => k.title != t) reg.keys).mpr ⟨a, ha, hpa⟩
        rw [hcht.mpr hlt] at h
        cases h
  · simp only [KeyRegistry.find_by_fingerprint]
    constructor
    · rintro ⟨k, hf, hfp⟩
      exact ⟨k, List.mem_of_find?_eq_some hf, hfp⟩
    · rintro ⟨k, hk, hfp⟩
      cases hf : reg.keys.find? (fun k => k.fingerprint == fp) with
      | none =>
          have := List.find?_eq_none.mp hf k hk
          simp [hfp] at this
      | some k' =>
          refine ⟨k', rfl, ?_⟩
          simpa using List.find?_some hf
  · simp only [KeyRegistry.find_by_fingerprint]
    rw [List.find?_eq_none]
    simp

/-- C5. With the registry at its default path, every saving mutation (add
always; remove and remove_by_title when they report a change) performs
exactly a parent mkdir, a write of the serialized registry to
$XDG_DATA_HOME/machine-setup/keys.json (falling back to
~/.local/share/machine-setup/keys.json when the variable is unset or
empty), and then a chmod of that same file to 0o600 (= 384); an unchanged
remove performs no effect. -/
theorem registry_save_xdg_owner_only (xdg : Option String) (home : String)
    (keys : List KeyRecord) (r : KeyRecord) (fp t : String) :
    (get_registry_path xdg home = xdgRegistryPathSpec xdg home) ∧
    ((KeyRegistry.mk (get_registry_path xdg home) keys).add r).2 =
      [FsEffect.mkdirParent (get_registry_path xdg home),
       FsEffect.writeText (get_registry_path xdg home)
         (dumpRegistry (keys ++ [r])),
       FsEffect.chmod (get_registry_path xdg home) 384] ∧
    (((KeyRegistry.mk (get_registry_path xdg home) keys).remove fp).2.1 =
        true →
      ((KeyRegistry.mk (get_registry_path xdg home) keys).remove fp).2.2 =
        [FsEffect.mkdirParent (get_registry_path xdg home),
         FsEffect.writeText (get_registry_path xdg home)
           (dumpRegistry
             (((KeyRegistry.mk (get_registry_path xdg home) keys).remove
               fp).1.keys)),
         FsEffect.chmod (get_registry_path xdg home) 384]) ∧
    (((KeyRegistry.mk (get_registry_path xdg home) keys).remove fp).2.1 =
        false →
      ((KeyRegistry.mk (get_registry_path xdg home) keys).remove fp).2.2 =
        []) ∧
    (((KeyRegistry.mk (get_registry_path xdg home)
          keys).remove_by_title t).2.1 = true →
      ((KeyRegistry.mk (get_registry_path xdg home)
          keys).remove_by_title t).2.2 =
        [FsEffect.mkdirParent (get_registry_path xdg home),
         FsEffect.writeText (get_registry_path xdg home)
           (dumpRegistry
             (((KeyRegistry.mk (get_registry_path xdg home)
                 keys).remove_by_title t).1.keys)),
         FsEffect.chmod (get_registry_path xdg home) 384]) ∧
    (((KeyRegistry.mk (get_registry_path xdg home)
          keys).remove_by_title t).2.1 = false →
      ((KeyRegistry.mk (get_registry_path xdg home)
          keys).remove_by_title t).2.2 = []) := by
  refine ⟨?_, rfl, ?_, ?_, ?_, ?_⟩
  · have hlit : ("/.local/share" ++ "/machine-setup/keys.json" : String) =
        "/.local/share/machine-setup/keys.json" := by decide
    have hbase : ∀ h : String,
        (h ++ "/.local/share") ++ "/machine-setup/keys.json" =
          h ++ "/.local/share/machine-setup/keys.json" := by
      intro h
      rw [String.append_assoc, hlit]
    cases xdg with
    | none =>
        simp only [get_registry_path, xdgRegistryPathSpec, Option.getD]
        rw [if_neg (by simp)]
        exact hbase home
    | some v =>
        by_cases hv : v = ""
        · simp only [get_registry_path, xdgRegistryPathSpec, Option.getD,
            hv]
          rw [if_neg (by simp)]
          exact hbase home
        · simp only [get_registry_path, xdgRegistryPathSpec, Option.getD]
          rw [if_pos hv]
          rw [if_pos hv]
  · intro h
    have h1 := (remove_effects
      (KeyRegistry.mk (get_registry_path xdg home) keys) fp).1 h
    have hp := (remove_effects
      (KeyRegistry.mk (get_registry_path xdg home) keys) fp).2.2
    rw [h1]
    simp [KeyRegistry.save, hp]
  · exact (remove_effects
      (KeyRegistry.mk (get_registry_path xdg home) keys) fp).2.1
  · intro h
    have h1 := (remove_by_title_effects
      (KeyRegistry.mk (get_registry_path xdg home) keys) t).1 h
    have hp := (remove_by_title_effects
      (KeyRegistry.mk (get_registry_path xdg home) keys) t).2.2
    rw [h1]
    simp [KeyRegistry.save, hp]
  · exact (remove_by_title_effects
      (KeyRegistry.mk (get_registry_path xdg home) keys) t).2.1

/-- C6. Persistence is whole-file overwrite: after add (always) and after a
remove or remove_by_title that reports a change, the file at the registry
path holds exactly the JSON serialization of the complete current record
list, whatever the file system held before; in particular the resulting
content never depends on the prior content (nothing is appended or
patched). -/
theorem registry_save_whole_file_overwrite (fs : String → Option String)
    (p : String) (keys : List KeyRecord) (r : KeyRecord) (fp t : String) :
    (applyFsEffects fs ((KeyRegistry.mk p keys).add r).2 p =
      some (dumpRegistry ((KeyRegistry.mk p keys).add r).1.keys)) ∧
    (((KeyRegistry.mk p keys).remove fp).2.1 = true →
      applyFsEffects fs ((KeyRegistry.mk p keys).remove fp).2.2 p =
        some (dumpRegistry ((KeyRegistry.mk p keys).remove fp).1.keys)) ∧
    (((KeyRegistry.mk p keys).remove_by_title t).2.1 = true →
      applyFsEffects fs ((KeyRegistry.mk p keys).remove_by_title t).2.2 p =
        some (dumpRegistry
          ((KeyRegistry.mk p keys).remove_by_title t).1.keys)) ∧
    (∀ fs' : String → Option String,
      applyFsEffects fs ((KeyRegistry.mk p keys).add r).2 p =
        applyFsEffects fs' ((KeyRegistry.mk p keys).add r).2 p) := by
  have hadd : ∀ g : String → Option String,
      applyFsEffects g ((KeyRegistry.mk p keys).add r).2 p =
        some (dumpRegistry ((KeyRegistry.mk p keys).add r).1.keys) :=
    fun g => applyFs_save g (KeyRegistry.mk p (keys ++ [r]))
  refine ⟨hadd fs, ?_, ?_, ?_⟩
  · intro h
    rw [(remove_effects (KeyRegistry.mk p keys) fp).1 h]
    have happ := applyFs_save fs ((KeyRegistry.mk p keys).remove fp).1
    rwa [(remove_effects (KeyRegistry.mk p keys) fp).2.2] at happ
  · intro h
    rw [(remove_by_title_effects (KeyRegistry.mk p keys) t).1 h]
    have happ :=
      applyFs_save fs ((KeyRegistry.mk p keys).remove_by_title t).1
    rwa [(remove_by_title_effects (KeyRegistry.mk p keys) t).2.2] at happ
  · intro fs'
    rw [hadd fs, hadd fs']

/-- Every delete prune issues comes from the filtered
(machine-setup-titled) key lists. -/
theorem pruneDeletions_sub (env : PruneEnv) :
    ∀ d ∈ pruneDeletions env, ∃ k,
      (k ∈ filter_machine_setup_keys env.sshResult.keys ++
        filter_machine_setup_keys env.gpgResult.keys) ∧
      d = (k.key_type, k.key_id) := by
  intro d hd
  simp only [pruneDeletions] at hd
  repeat' split at hd
  all_goals
    first
    | exact absurd hd (List.not_mem_nil d)
    | (rcases List.mem_map.mp hd with ⟨k, hk, rfl⟩
       first
       | exact ⟨k, hk, rfl⟩
       | exact ⟨k, (List.mem_filter.mp hk).1, rfl⟩)

/-- C9. Pruning never touches a key the tool did not name: the filter keeps
exactly the keys whose title starts with "machine-setup-", every delete
prune issues carries the id of some machine-setup-titled key of the
listings, and hence a listed key whose title does not match (and whose id
no machine-setup-titled key shares) never has its id deleted. -/
theorem prune_only_machine_setup_titled_keys :
    (∀ (keys : List GitHubKey) (k : GitHubKey),
      k ∈ filter_machine_setup_keys keys ↔
        k ∈ keys ∧ keyPatternMatch k.title = true) ∧
    (∀ (env : PruneEnv) (d : String × String), d ∈ pruneDeletions env →
      ∃ k, (k ∈ env.sshResult.keys ++ env.gpgResult.keys) ∧
        keyPatternMatch k.title = true ∧ d = (k.key_type, k.key_id)) ∧
    (∀ (env : PruneEnv) (g : GitHubKey),
      g ∈ env.sshResult.keys ++ env.gpgResult.keys →
      keyPatternMatch g.title = false →
      (∀ k, k ∈ env.sshResult.keys ++ env.gpgResult.keys →
        k.key_id = g.key_id → k = g) →
      ∀ d ∈ pruneDeletions env, d.2 ≠ g.key_id) := by
  have hfc : ∀ (keys : List GitHubKey) (k : GitHubKey),
      k ∈ filter_machine_setup_keys keys ↔
        k ∈ keys ∧ keyPatternMatch k.title = true := by
    intro keys k
    simp [filter_machine_setup_keys, List.mem_filter]
  have hsub : ∀ (env : PruneEnv) (d : String × String),
      d ∈ pruneDeletions env →
      ∃ k, (k ∈ env.sshResult.keys ++ env.gpgResult.keys) ∧
        keyPatternMatch k.title = true ∧ d = (k.key_type, k.key_id) := by
    intro env d hd
    rcases pruneDeletions_sub env d hd with ⟨k, hk, rfl⟩
    rcases List.mem_append.mp hk with h | h
    · rcases (hfc _ k).mp h with ⟨hm, hp⟩
      exact ⟨k, List.mem_append_left _ hm, hp, rfl⟩
    · rcases (hfc _ k).mp h with ⟨hm, hp⟩
      exact ⟨k, List.mem_append_right _ hm, hp, rfl⟩
  refine ⟨hfc, hsub, ?_⟩
  intro env g hg hgpat huniq d hd hid
  rcases hsub env d hd with ⟨k, hk, hp, rfl⟩
  have hkg : k = g := huniq k hk hid
  rw [hkg] at hp
  rw [hp] at hgpat
  cases hgpat

/-- C10 counterexample: a registry file holding valid JSON whose top level
is a list (the parse of "[]"). The claim says loading bad input never
raises, but `data.get("keys", [])` raises AttributeError on a list, and
the except clause catches only JSONDecodeError and TypeError. -/
theorem registry_load_toplevel_array_counterexample :
    loadRegistry (RegistryFile.parsed (JValue.arr [])) =
      Except.error PyErr.attributeError := by
  rfl

/-- On a mismatched entry KeyRecord(**k) raises TypeError. -/
theorem buildRecord_error_of_mismatch (k : JValue)
    (h : recordFieldsMismatch k = true) :
    buildRecord k = Except.error PyErr.typeError := by
  cases k with
  | obj fields =>
      simp only [recordFieldsMismatch, Bool.not_eq_true'] at h
      simp [buildRecord, h]
  | null => rfl
  | bool b => rfl
  | num n => rfl
  | str s => rfl
  | arr xs => rfl

/-- A "keys" list holding any mismatched entry makes the whole
comprehension raise. -/
theorem buildRecords_error_of_mismatch (xs : List JValue) :
    (∃ k ∈ xs, recordFieldsMismatch k = true) →
    ∃ e, buildRecords xs = Except.error e := by
  induction xs with
  | nil =>
      rintro ⟨k, hk, _⟩
      cases hk
  | cons a t ih =>
      rintro ⟨k, hk, hmis⟩
      rcases List.mem_cons.mp hk with rfl | hkt
      · exact ⟨PyErr.typeError, by
          simp [buildRecords, buildRecord_error_of_mismatch k hmis]⟩
      · rcases ih ⟨k, hkt, hmis⟩ with ⟨e, he⟩
        cases hb : buildRecord a with
        | error e' => exact ⟨e', by simp [buildRecords, hb]⟩
        | ok r => exact ⟨e, by simp [buildRecords, hb, he]⟩

/-- C10 (amended: the tolerated bad inputs are a missing file, unparseable
JSON, and records whose field names do not fit the dataclass inside a
top-level JSON object; a top-level non-object raises AttributeError). In
each tolerated case construction succeeds and the record list is empty. -/
theorem registry_load_tolerates_bad_input_amended :
    (loadRegistry RegistryFile.absent = Except.ok []) ∧
    (loadRegistry RegistryFile.invalidJson = Except.ok []) ∧
    (∀ (fields : List (String × JValue)) (xs : List JValue),
      lookupField fields "keys" = some (JValue.arr xs) →
      (∃ k ∈ xs, recordFieldsMismatch k = true) →
      loadRegistry (RegistryFile.parsed (JValue.obj fields)) =
        Except.ok []) := by
  refine ⟨rfl, rfl, ?_⟩
  rintro fields xs hks hex
  rcases buildRecords_error_of_mismatch xs hex with ⟨e, he⟩
  simp [loadRegistry, hks, he]

end MachineSetup
